import Mathlib

/-!
Shallow embedding of the euralink audio-session orchestrator core:
the per-guild `Player` state machine (src/unnamed/part_001), its voice
`Connection` (src/unnamed/part_003), the `Filters` bassboost derivation and
`Rest.destroyPlayer` (src/build/structures/Rest.js), and the load/fallback
fragment of `Euralink#resolve` (src/build/structures/Euralink.js).

Conventions of the embedding:
* JS `null`/`undefined` fields become `Option`; a falsy string test
  (`!s`) becomes `strFalsy`.
* Wall-clock reads (`Date.now()`) are passed in as an explicit `now`.
* Network and event-emitter side effects are recorded as an ordered list of
  `Ev` values returned next to the new state; the node PATCH body built by
  the player's batcher is recorded in `Player.updateQueue` (`Upd` values),
  the voice PATCH snapshots in `Connection.updateQueue`.
* Debug logging, activity-status and voice-status cosmetics, timers, and
  timestamps of record keeping are not modelled (the spec scopes them out).
-/

namespace Euralink

/-- Voice credential block accumulated by `Connection` from the two gateway
updates (`this.voice` in src/unnamed/part_003). -/
structure Voice where
  sessionId : Option String
  endpoint : Option String
  token : Option String
deriving DecidableEq

/-- The track metadata fields the core consults (`track.info`). -/
structure TrackInfo where
  identifier : String
  length : Int
deriving DecidableEq

/-- A resolved track; the encoded blob itself is opaque to the claims. -/
structure Track where
  info : TrackInfo
deriving DecidableEq

/-- An entry of `player.previousTracks`: a track spread together with
`playedAt` and `replayCount` (see `addToPreviousTrack`). -/
structure HistoryEntry where
  track : Track
  playedAt : Nat
  replayCount : Nat
deriving DecidableEq

/-- One field of the player's batched `updatePlayer` PATCH payload. -/
inductive Upd where
  | paused (b : Bool)
  | position (p : Int)
  | trackEncoded (e : Option String)
  | volume (v : Int)
deriving DecidableEq

/-- Observable side effects: emitter observations, node REST calls, gateway
sends, and the `play()` / `autoplay()` continuations. -/
inductive Ev where
  | fadeOut
  | emitTrackEnd
  | emitQueueEnd
  | playCall
  | autoplayCall
  | gatewayJoin
  | gatewayLeave
  | emitPlayerDisconnect
  | emitPlayerMove
  | restDelete
  | emitPlayerDestroy
  | destroyCall
deriving DecidableEq

/-- Per-player voice binding (class `Connection`, src/unnamed/part_003).
`updateQueue` holds the batched `{voice, volume}` snapshots pushed by
`Connection#queueUpdate`. -/
structure Connection where
  voice : Voice
  region : Option String
  connectionState : String
  voiceChannel : Option String
  self_deaf : Bool
  self_mute : Bool
  updateQueue : List (Voice × Int)
deriving DecidableEq

/-- The `Player` fields the claims depend on (class `Player`,
src/unnamed/part_001). -/
structure Player where
  current : Option Track
  queue : List Track
  previousTracks : List HistoryEntry
  historyLimit : Nat
  playing : Bool
  paused : Bool
  connected : Bool
  position : Int
  volume : Int
  loop : String
  isAutoplay : Bool
  fadeInMs : Nat
  voiceChannel : Option String
  updateQueue : List Upd
  connection : Connection
deriving DecidableEq

/-- A player together with its membership in the orchestrator's
`eura.players` map (used by `destroy`). -/
structure World where
  player : Player
  inPlayersMap : Bool
deriving DecidableEq

/-- JS falsiness of an optional string (`!s`): missing or empty. -/
def strFalsy : Option String → Bool
  | none => true
  | some s => s = ""

/-- `Player#queueUpdate` with batching on (the default): append the partial
update to the pending batch. -/
def queueUpdate (p : Player) (u : Upd) : Player :=
  { p with updateQueue := p.updateQueue ++ [u] }

/-- `Player#pause(toggle)`: schedule `paused`, then set
`playing = !toggle`, `paused = toggle`. No other field is consulted. -/
def pause (p : Player) (toggle : Bool) : Player :=
  let p := queueUpdate p (Upd.paused toggle)
  { p with playing := !toggle, paused := toggle }

/-- `Player#seek(position)`: schedule `position` and store it. The source
performs no range check. -/
def seek (p : Player) (pos : Int) : Player :=
  let p := queueUpdate p (Upd.position pos)
  { p with position := pos }

/-- `Player#stop()`: zero the position, stop playing, schedule
`track.encoded = null`. `current` and `queue` are not touched. -/
def stop (p : Player) : Player :=
  let p := { p with position := 0, playing := false }
  queueUpdate p (Upd.trackEncoded none)

/-- `Player#setVolume(volume)`: validate the range, schedule `volume`. -/
def setVolume (p : Player) (volume : Int) : Except String Player :=
  if volume < 0 ∨ volume > 1000 then
    Except.error "Volume must be between 0 and 1000"
  else
    Except.ok { queueUpdate p (Upd.volume volume) with volume := volume }

/-- `Player#trackStart`: set `playing`; adopt the passed track as current
only when `current` is unset. -/
def trackStart (p : Player) (track : Option Track) : Player :=
  let p := { p with playing := true }
  if p.current = none ∧ track ≠ none then { p with current := track } else p

/-- `Player#addToPreviousTrack(track)`: newest-first history push with
consecutive-identifier dedup and the `historyLimit` slice. -/
def addToPreviousTrack (hist : List HistoryEntry) (limit : Nat) (now : Nat) :
    Option Track → List HistoryEntry
  | none => hist
  | some t =>
    match hist with
    | h :: rest =>
      if h.track.info.identifier = t.info.identifier then
        { h with replayCount := h.replayCount + 1, playedAt := now } :: rest
      else
        let hist2 := { track := t, playedAt := now, replayCount := 1 } :: h :: rest
        if hist2.length > limit then hist2.take limit else hist2
    | [] =>
      let hist2 := [{ track := t, playedAt := now, replayCount := 1 }]
      if hist2.length > limit then hist2.take limit else hist2

/-- `Player#trackEnd(player, track, payload)` as invoked from `handleEvent`
(which passes `this.current` as the ended track). The crossfade block only
issues volume PATCHes, recorded as `Ev.fadeOut`; `play()` / `autoplay()`
are recorded as continuation events; a null `current` is never enqueued in
the model (`Option.toList`). -/
def trackEnd (p : Player) (reason : String) (now : Nat) : Player × List Ev :=
  let p := { p with playing := false }
  let fade : List Ev :=
    if p.queue.length > 0 ∧ reason = "FINISHED" ∧ p.fadeInMs > 0 then
      [Ev.fadeOut]
    else []
  let p := { p with
    previousTracks := addToPreviousTrack p.previousTracks p.historyLimit now p.current }
  let evs := fade ++ [Ev.emitTrackEnd]
  if reason = "REPLACED" then
    (p, evs ++ [Ev.emitTrackEnd])
  else if !p.connected then
    (p, evs ++ [Ev.emitQueueEnd])
  else if p.loop = "track" ∧ reason ≠ "STOPPED" then
    ({ p with queue := p.current.toList ++ p.queue }, evs ++ [Ev.playCall])
  else if p.loop = "queue" ∧ reason ≠ "STOPPED" then
    ({ p with queue := p.queue ++ p.current.toList }, evs ++ [Ev.playCall])
  else if p.queue.length > 0 then
    (p, evs ++ [Ev.playCall])
  else if p.isAutoplay then
    (p, evs ++ [Ev.autoplayCall])
  else
    (p, evs ++ [Ev.emitQueueEnd])

/-- `Player#connect`: already-connected and already-connecting calls return
unchanged; otherwise enter `connecting` and send the gateway voice join.
Node availability and option presence are assumed (their failures throw
before any state change). -/
def connect (p : Player) : Player × List Ev :=
  if p.connected then (p, [])
  else if p.connection.connectionState = "connecting" then (p, [])
  else
    ({ p with connection := { p.connection with connectionState := "connecting" } },
     [Ev.gatewayJoin])

/-- `Player#disconnect`: no-op when already disconnected or without a voice
channel; otherwise pause, leave the channel, and clear the binding. -/
def disconnect (p : Player) : Player × List Ev :=
  if p.connection.connectionState = "disconnected" ∨ strFalsy p.voiceChannel then
    (p, [])
  else
    let p := pause p true
    let p := { p with playing := false }
    let p := { p with
      connection := { p.connection with connectionState := "disconnected" },
      connected := false,
      voiceChannel := none }
    (p, [Ev.gatewayLeave, Ev.emitPlayerDisconnect])

/-- `Player#destroy(disconnect)`: optionally disconnect, drop the pending
batch, DELETE the node-side player (`Rest#destroyPlayer`, recorded as
`Ev.restDelete`, issued unconditionally), and leave the orchestrator map. -/
def destroy (w : World) (disc : Bool) : World × List Ev :=
  let pe := if disc then disconnect w.player else (w.player, [])
  let p := { pe.1 with updateQueue := [] }
  ({ player := p, inPlayersMap := false },
   pe.2 ++ [Ev.restDelete, Ev.emitPlayerDestroy])

/-- JS `s.split(".")` on the character list (single-character separator). -/
def splitDot : List Char → List (List Char)
  | [] => [[]]
  | c :: cs =>
    if c = '.' then [] :: splitDot cs
    else
      match splitDot cs with
      | seg :: rest => (c :: seg) :: rest
      | [] => [[c]]

/-- JS `s.replace(/[0-9]/g, "")`. -/
def stripDigits (cs : List Char) : List Char :=
  cs.filter (fun c => !c.isDigit)

/-- Whether `p` begins the list `s`. -/
def beginsWith : List Char → List Char → Bool
  | [], _ => true
  | _ :: _, [] => false
  | a :: ps, c :: cs => a = c && beginsWith ps cs

/-- Greedy match of `/([a-z]+)[0-9]*\.discord\.com/` anchored at the head of
`cs`, returning capture group 1. Greediness is exact here: a shorter letter
run would have to be followed by a digit or a dot, which contradicts the
maximality of the run. -/
def matchDiscordAt (cs : List Char) : Option (List Char) :=
  let letters := cs.takeWhile (fun c => 'a' ≤ c && c ≤ 'z')
  if letters.isEmpty then none
  else
    let rest := cs.drop letters.length
    let digits := rest.takeWhile (fun c => c.isDigit)
    let rest2 := rest.drop digits.length
    if beginsWith ".discord.com".data rest2 then some letters else none

/-- Leftmost match of the same pattern, as `String#match` scans. -/
def findDiscordMatch : List Char → Option (List Char)
  | [] => none
  | c :: cs =>
    match matchDiscordAt (c :: cs) with
    | some r => some r
    | none => findDiscordMatch cs

/-- `Connection#extractRegion(endpoint)`: method 1 strips digits from the
first dot-segment, method 2 reads the `<region>N.discord.com` capture,
method 3 repeats method 1 textually; the first non-empty result wins,
lower-cased; otherwise `"unknown"`. A falsy endpoint yields `null`. -/
def extractRegion (endpoint : String) : Option String :=
  if endpoint = "" then none
  else
    let method1 := stripDigits ((splitDot endpoint.data).headD [])
    let method2 := (findDiscordMatch endpoint.data).getD []
    let method3 := method1
    if method1 ≠ [] then some (String.mk (method1.map Char.toLower))
    else if method2 ≠ [] then some (String.mk (method2.map Char.toLower))
    else if method3 ≠ [] then some (String.mk (method3.map Char.toLower))
    else some "unknown"

/-- `Connection#queueUpdate` with batching on: push a snapshot of the
current voice block together with the player volume. -/
def connQueueUpdate (p : Player) : Player :=
  { p with connection := { p.connection with
      updateQueue := p.connection.updateQueue ++ [(p.connection.voice, p.volume)] } }

/-- `Connection#setServerUpdate({endpoint, token})`: record the credentials
and region, auto-resume a player paused while connecting, mark connected,
and queue a voice snapshot. A falsy endpoint throws. -/
def setServerUpdate (p : Player) (endpoint token : Option String) :
    Except String Player :=
  if strFalsy endpoint then
    Except.error "Missing endpoint property in VOICE_SERVER_UPDATE"
  else
    let ep := endpoint.getD ""
    let p := { p with connection := { p.connection with
      voice := { p.connection.voice with endpoint := some ep, token := token },
      region := extractRegion ep } }
    let p :=
      if p.paused ∧ p.connection.connectionState = "connecting" then pause p false
      else p
    let p := { p with
      connection := { p.connection with connectionState := "connected" },
      connected := true }
    Except.ok (connQueueUpdate p)

/-- `Connection#setStateUpdate(data)`: a null channel is a disconnect that
destroys the player (recorded as `Ev.destroyCall`); otherwise detect a
channel move, then record session and flags and mark connected. The handler
does not queue a voice snapshot. -/
def setStateUpdate (p : Player) (session_id channel_id : Option String)
    (sdeaf smute : Bool) : Player × List Ev :=
  if channel_id = none then
    ({ p with
        connection := { p.connection with connectionState := "disconnected" },
        connected := false },
     [Ev.emitPlayerDisconnect, Ev.destroyCall])
  else
    let moved := !strFalsy p.voiceChannel && !strFalsy channel_id
        && p.voiceChannel != channel_id
    let p :=
      if moved then
        { p with voiceChannel := channel_id,
                 connection := { p.connection with voiceChannel := channel_id } }
      else p
    let p := { p with
      connection := { p.connection with
        self_deaf := sdeaf,
        self_mute := smute,
        voice := { p.connection.voice with
          sessionId := if strFalsy session_id then none else session_id },
        connectionState := "connected" },
      connected := true }
    (p, if moved then [Ev.emitPlayerMove] else [])

/-- `Connection#processUpdateQueue` + `updatePlayerVoiceData`: flush the
latest queued snapshot as one PATCH body `{voice, volume}` and clear the
queue; an empty queue flushes nothing. -/
def processConnUpdateQueue (p : Player) : Option (Voice × Int) × Player :=
  match p.connection.updateQueue.getLast? with
  | none => (none, p)
  | some latest =>
    (some latest, { p with connection := { p.connection with updateQueue := [] } })

/-- One equalizer band entry `{band, gain}`. -/
structure EqBand where
  band : Nat
  gain : ℚ
deriving DecidableEq

/-- The `Filters` fields the bassboost derivation touches
(src/build/structures/Rest.js, class `Filters`). -/
structure Filters where
  bassboost : Option ℚ
  equalizer : List EqBand
deriving DecidableEq

/-- JS `x || d` on an optional number: `0`, like `undefined`, falls back. -/
def numOr (v : Option ℚ) (d : ℚ) : ℚ :=
  match v with
  | none => d
  | some x => if x = 0 then d else x

/-- `Filters#setEqualizer(band)`. -/
def setEqualizer (f : Filters) (band : List EqBand) : Filters :=
  { f with equalizer := band }

/-- `Filters#setBassboost(enabled, options)`: validates `options.value`
against `[0, 5]` (a missing value passes, as NaN comparisons are false),
stores `options.value || 5`, and builds the bands from
`(options.value || 5 - 1) * (1.25 / 9) - 0.25` — which by JS precedence is
`(options.value || 4) * (1.25 / 9) - 0.25` — over `Array(13)`. -/
def setBassboost (f : Filters) (enabled : Bool) (value : Option ℚ) :
    Except String Filters :=
  if !enabled then
    Except.ok (setEqualizer { f with bassboost := none } [])
  else if (match value with | some x => decide (x < 0 ∨ x > 5) | none => false) then
    Except.error "Bassboost value must be between 0 and 5"
  else
    let f := { f with bassboost := some (numOr value 5) }
    let num := numOr value (5 - 1) * (125/100 / 9) - 25/100
    Except.ok (setEqualizer f
      ((List.range 13).map (fun i => { band := i, gain := num })))

/-- A node `loadtracks` response, abstracted to its `loadType`. -/
structure LoadResponse where
  loadType : String
deriving DecidableEq

/-- The `^https?:\/\/` test of `Euralink#resolve`. -/
def isUrl (q : String) : Bool :=
  beginsWith "http://".data q.data || beginsWith "https://".data q.data

/-- `loadType === "empty" || loadType === "NO_MATCHES"`. -/
def isEmptyLoad (r : LoadResponse) : Bool :=
  r.loadType == "empty" || r.loadType == "NO_MATCHES"

/-- The identifier-building, load, error-fallback and empty-fallback
sequence of `Euralink#resolve` (src/build/structures/Euralink.js,
lines 613–643). `load` abstracts `GET /loadtracks?identifier=...` on the
selected node. Returns the identifiers requested, in order, together with
the response the rest of `resolve` maps into its result, or the thrown
error. -/
def resolveLoad (load : String → LoadResponse) (query source : String) :
    Except String (List String × LoadResponse) :=
  let identifier := if isUrl query then query else source ++ ":" ++ query
  let r1 := load identifier
  let afterError : Except String (List String × LoadResponse) :=
    if r1.loadType == "error" then
      if isUrl query then
        let fallbackIdentifier := source ++ ":" ++ query
        let r2 := load fallbackIdentifier
        if r2.loadType == "error" then Except.error "Failed to load tracks"
        else Except.ok ([identifier, fallbackIdentifier], r2)
      else Except.error "Failed to load tracks"
    else Except.ok ([identifier], r1)
  match afterError with
  | Except.error e => Except.error e
  | Except.ok (calls, r) =>
    if isEmptyLoad r then
      let idSpotify := "https://open.spotify.com/track/" ++ query
      let r2 := load idSpotify
      if isEmptyLoad r2 then
        let idYoutube := "https://www.youtube.com/watch?v=" ++ query
        Except.ok (calls ++ [idSpotify, idYoutube], load idYoutube)
      else Except.ok (calls ++ [idSpotify], r2)
    else Except.ok (calls, r)

/-- Adjacent history entries carry distinct identifiers. -/
def adjacentDistinct : List HistoryEntry → Bool
  | a :: b :: rest =>
    (a.track.info.identifier != b.track.info.identifier) && adjacentDistinct (b :: rest)
  | _ => true

/-- `Except.ok` projection with a default, to name scenario states. -/
def getOk {α : Type} (d : α) : Except String α → α
  | Except.ok a => a
  | Except.error _ => d

/-- The voice binding of a freshly constructed `Connection`. -/
def initialConnection (vc : Option String) : Connection :=
  { voice := { sessionId := none, endpoint := none, token := none }
    region := none
    connectionState := "disconnected"
    voiceChannel := vc
    self_deaf := false
    self_mute := false
    updateQueue := [] }

/-- A freshly constructed `Player` bound to voice channel `vc`
(constructor defaults of src/unnamed/part_001). -/
def freshPlayer (vc : Option String) : Player :=
  { current := none
    queue := []
    previousTracks := []
    historyLimit := 20
    playing := false
    paused := false
    connected := false
    position := 0
    volume := 100
    loop := "none"
    isAutoplay := false
    fadeInMs := 0
    voiceChannel := vc
    updateQueue := []
    connection := initialConnection vc }

/-- Scenario S1, before any gateway update: the player was created and
`connect()` ran (entering `connecting` and sending the voice join). -/
def handshakeP0 : Player := (connect (freshPlayer (some "VC"))).1

/-- Scenario S1 after `VOICE_SERVER_UPDATE{endpoint, token}`. -/
def handshakeP1 : Player :=
  getOk handshakeP0 (setServerUpdate handshakeP0 (some "us-east42.example:443") (some "T"))

/-- Scenario S1 after the subsequent `VOICE_STATE_UPDATE{session, channel}`. -/
def handshakeP2 : Player :=
  (setStateUpdate handshakeP1 (some "S") (some "VC") false false).1

/-- A sample track used by concrete counterexamples and witnesses. -/
def trackA : Track := { info := { identifier := "idA", length := 1000 } }

/-- A second sample track. -/
def trackB : Track := { info := { identifier := "idB", length := 2000 } }

/-- A playing, connected player with `trackA` current and `trackB` queued. -/
def playerW : Player :=
  { freshPlayer (some "VC") with
      current := some trackA
      queue := [trackB]
      playing := true
      connected := true
      connection := { initialConnection (some "VC") with connectionState := "connected" } }

/-- A connected player with no current track, paused. -/
def playerNoCurrent : Player :=
  { freshPlayer (some "VC") with
      paused := true
      connected := true
      connection := { initialConnection (some "VC") with connectionState := "connected" } }

/-- A paused player whose binding is mid-handshake (`connecting`). -/
def playerPausedConnecting : Player :=
  { freshPlayer (some "VC") with
      paused := true
      current := some trackA
      connection := { initialConnection (some "VC") with connectionState := "connecting" } }

/-- Empty filter bank. -/
def filters0 : Filters := { bassboost := none, equalizer := [] }

/-- A loadtracks oracle on which the plain query is empty, the Spotify
fallback is empty, and the YouTube fallback finds a track. -/
def loadOracle (identifier : String) : LoadResponse :=
  if identifier = "https://www.youtube.com/watch?v=abc123" then
    { loadType := "track" }
  else { loadType := "empty" }

/-- A playing world whose player is in the orchestrator map. -/
def worldW : World := { player := playerW, inPlayersMap := true }

/-- C1 (counterexample): on scenario S1 the Connection is already
`connected` after the first update alone (it never shows `connecting` as
the claim requires of the first update, and `connected` is not reached
"only after the second"), and the single flushed PATCH carries a voice
block whose sessionId is `null`, not `"S"`: the snapshot is taken at the
server update, before the session id arrives. -/
theorem voice_handshake_counterexample :
    handshakeP1.connection.connectionState = "connected" ∧
    (processConnUpdateQueue handshakeP2).1 =
      some ({ sessionId := none, endpoint := some "us-east42.example:443",
              token := some "T" }, 100) := by
  decide

/-- C1 (amended): `connect()` itself enters `connecting` before any update;
the first update (`VOICE_SERVER_UPDATE`) transitions directly to
`connected` with region `"us-east"`; the second records the session id;
exactly one PATCH snapshot is flushed and its voice block is
`{sessionId: null, endpoint: "us-east42.example:443", token: "T"}`. -/
theorem voice_handshake_amended :
    handshakeP0.connection.connectionState = "connecting" ∧
    handshakeP1.connection.connectionState = "connected" ∧
    handshakeP1.connected = true ∧
    handshakeP1.connection.region = some "us-east" ∧
    handshakeP2.connection.connectionState = "connected" ∧
    handshakeP2.connection.voice =
      { sessionId := some "S", endpoint := some "us-east42.example:443",
        token := some "T" } ∧
    handshakeP2.connection.updateQueue.length = 1 ∧
    (processConnUpdateQueue handshakeP2).1 =
      some ({ sessionId := none, endpoint := some "us-east42.example:443",
              token := some "T" }, 100) := by
  decide

/-- C3 (counterexample): `pause(false)` on a connected player with no
current track leaves `playing = true` while `current = null`, violating
the claimed invariant `playing ⇒ current ≠ null`. -/
theorem pause_invariant_counterexample :
    (pause playerNoCurrent false).playing = true ∧
    (pause playerNoCurrent false).current = none := by
  decide

/-- C3 (amended): `pause(toggle)` unconditionally sets `paused = toggle`
and `playing = ¬toggle` and leaves `current` untouched — so
`paused ⇒ ¬playing` always holds after `pause`, while
`playing ⇒ current ≠ null` is not enforced (`pause(false)` with
`current = null` yields `playing = true`); `stop` and `seek` preserve
both invariants. -/
theorem pause_invariant_amended (p : Player) (t : Bool) :
    (pause p t).paused = t ∧
    (pause p t).playing = !t ∧
    (pause p t).current = p.current ∧
    (stop p).playing = false ∧
    (∀ pos : Int, (seek p pos).playing = p.playing ∧
      (seek p pos).paused = p.paused ∧ (seek p pos).current = p.current) := by
  refine ⟨rfl, rfl, rfl, rfl, fun pos => ⟨rfl, rfl, rfl⟩⟩

/-- C4 (counterexample): on a player whose current track has length
1000 > 0, `seek(-1)` raises nothing and does change state: it stores
position `-1` and schedules the out-of-range position update. -/
theorem seek_validation_counterexample :
    playerW.current = some trackA ∧
    trackA.info.length = 1000 ∧
    (seek playerW (-1)).position = -1 ∧
    (seek playerW (-1)).updateQueue = [Upd.position (-1)] := by
  decide

/-- C4 (amended): `seek(posMs)` performs no range validation at all: for
every position, in range or not, it schedules the position update and sets
`position := posMs`, leaving every other field unchanged. -/
theorem seek_no_validation_amended (p : Player) (pos : Int) :
    seek p pos =
      { p with position := pos,
               updateQueue := p.updateQueue ++ [Upd.position pos] } := by
  rfl

/-- C5 (counterexample): the second `destroy()` issues another DELETE to
the node: `destroyPlayer` is called unconditionally on every call. -/
theorem destroy_idempotence_counterexample :
    Ev.restDelete ∈ (destroy (destroy worldW true).1 true).2 := by
  decide

/-- C5 (amended): a second `destroy()` changes no state (the world is a
fixed point) but its effect list is `[restDelete, emitPlayerDestroy]` —
in particular it does issue a second DELETE to the node's player
endpoint. -/
theorem destroy_idempotent_state_amended (w : World) :
    (destroy (destroy w true).1 true).1 = (destroy w true).1 ∧
    (destroy (destroy w true).1 true).2 = [Ev.restDelete, Ev.emitPlayerDestroy] := by
  by_cases h : w.player.connection.connectionState = "disconnected" ∨
      strFalsy w.player.voiceChannel
  · simp [destroy, disconnect, pause, queueUpdate, h]
  · simp [destroy, disconnect, pause, queueUpdate, h]

/-- C6 (counterexample): `stop()` does not clear the current track — on a
player holding `trackA` it still holds `trackA` afterwards, contradicting
"current becomes null". -/
theorem stop_clears_current_counterexample :
    playerW.current = some trackA ∧
    (stop playerW).current = some trackA := by
  decide

/-- C6 (amended): `stop()` zeroes the position, sets `playing = false`,
and schedules `track.encoded = null`; `current` is left unchanged (not
cleared), and the queue and all other fields are untouched. -/
theorem stop_semantics_amended (p : Player) :
    stop p = { p with position := 0, playing := false,
                      updateQueue := p.updateQueue ++ [Upd.trackEncoded none] } := by
  rfl

/-- C7 (code divergence at the failing input): enabling bassboost with
value 2 sets 13 bands (not 15), each with gain
`2 · (1.25/9) − 0.25 = 1/36` — `options.value || 5 - 1` parses as
`options.value || 4` — while the documented formula `(v−1)·(1.25/9) − 0.25`
gives `−1/9 ≠ 1/36` at `v = 2`. -/
theorem setBassboost_eval :
    setBassboost filters0 true (some 2) =
      Except.ok { bassboost := some 2,
                  equalizer := (List.range 13).map
                    (fun i => { band := i, gain := 1/36 }) } ∧
    (1/36 : ℚ) ≠ (2 - 1) * (125/100 / 9) - 25/100 := by
  constructor
  · norm_num [setBassboost, numOr, setEqualizer, filters0]
  · norm_num

/-- C2: `trackEnd` first appends the ended track (`current`) to the
history — in every branch — and then decides in exactly the claimed
order: REPLACED stops without advancing; a disconnected player gets
queue-end; `loop=track` (reason ≠ STOPPED) unshifts and plays;
`loop=queue` (reason ≠ STOPPED) pushes and plays; a non-empty queue
plays; autoplay resolves; otherwise queue-end. -/
theorem trackEnd_decision_order (p : Player) (reason : String) (now : Nat) :
    (trackEnd p reason now).1.previousTracks =
      addToPreviousTrack p.previousTracks p.historyLimit now p.current ∧
    (reason = "REPLACED" →
      (trackEnd p reason now).1.queue = p.queue ∧
      Ev.emitTrackEnd ∈ (trackEnd p reason now).2 ∧
      Ev.playCall ∉ (trackEnd p reason now).2 ∧
      Ev.autoplayCall ∉ (trackEnd p reason now).2) ∧
    (reason ≠ "REPLACED" → p.connected = false →
      Ev.emitQueueEnd ∈ (trackEnd p reason now).2 ∧
      Ev.playCall ∉ (trackEnd p reason now).2 ∧
      Ev.autoplayCall ∉ (trackEnd p reason now).2 ∧
      (trackEnd p reason now).1.queue = p.queue) ∧
    (reason ≠ "REPLACED" → p.connected = true →
      p.loop = "track" → reason ≠ "STOPPED" →
      (trackEnd p reason now).1.queue = p.current.toList ++ p.queue ∧
      Ev.playCall ∈ (trackEnd p reason now).2) ∧
    (reason ≠ "REPLACED" → p.connected = true →
      p.loop = "queue" → reason ≠ "STOPPED" →
      (trackEnd p reason now).1.queue = p.queue ++ p.current.toList ∧
      Ev.playCall ∈ (trackEnd p reason now).2) ∧
    (reason ≠ "REPLACED" → p.connected = true →
      ¬(p.loop = "track" ∧ reason ≠ "STOPPED") →
      ¬(p.loop = "queue" ∧ reason ≠ "STOPPED") →
      p.queue ≠ [] →
      (trackEnd p reason now).1.queue = p.queue ∧
      Ev.playCall ∈ (trackEnd p reason now).2) ∧
    (reason ≠ "REPLACED" → p.connected = true →
      ¬(p.loop = "track" ∧ reason ≠ "STOPPED") →
      ¬(p.loop = "queue" ∧ reason ≠ "STOPPED") →
      p.queue = [] → p.isAutoplay = true →
      Ev.autoplayCall ∈ (trackEnd p reason now).2 ∧
      Ev.playCall ∉ (trackEnd p reason now).2) ∧
    (reason ≠ "REPLACED" → p.connected = true →
      ¬(p.loop = "track" ∧ reason ≠ "STOPPED") →
      ¬(p.loop = "queue" ∧ reason ≠ "STOPPED") →
      p.queue = [] → p.isAutoplay = false →
      Ev.emitQueueEnd ∈ (trackEnd p reason now).2 ∧
      Ev.playCall ∉ (trackEnd p reason now).2 ∧
      Ev.autoplayCall ∉ (trackEnd p reason now).2) := by
  refine ⟨?_, ?_, ?_, ?_, ?_, ?_, ?_, ?_⟩
  · simp only [trackEnd]
    split_ifs <;> rfl
  · intro h1
    subst h1
    simp [trackEnd]
  · intro h1 h2
    simp [trackEnd, h1, h2]
  · intro h1 h2 h3 h4
    simp [trackEnd, h1, h2, h3, h4]
  · intro h1 h2 h3 h4
    simp [trackEnd, h1, h2, h3, h4]
  · intro h1 h2 h3 h4 h5
    simp [trackEnd, h1, h2, h3, h4, h5, List.length_pos]
  · intro h1 h2 h3 h4 h5 h6
    simp [trackEnd, h1, h2, h3, h4, h5, h6]
  · intro h1 h2 h3 h4 h5 h6
    simp [trackEnd, h1, h2, h3, h4, h5, h6]

/-- C2 (witness): on the concrete playing player, a REPLACED track end
leaves the queue untouched and never calls `play()`. -/
theorem trackEnd_decision_order_witness :
    (trackEnd playerW "REPLACED" 7).1.queue = playerW.queue ∧
    Ev.playCall ∉ (trackEnd playerW "REPLACED" 7).2 := by
  have h := trackEnd_decision_order playerW "REPLACED" 7
  exact ⟨(h.2.1 rfl).1, (h.2.1 rfl).2.2.1⟩

/-- `adjacentDistinct` is preserved by any prefix. -/
theorem adjacentDistinct_take (n : Nat) :
    ∀ l : List HistoryEntry, adjacentDistinct l = true →
      adjacentDistinct (l.take n) = true := by
  induction n with
  | zero => intro l _; simp [adjacentDistinct]
  | succ n ih =>
    intro l h
    match l with
    | [] => simp [adjacentDistinct]
    | [a] => simp [adjacentDistinct, List.take]
    | a :: b :: rest =>
      rw [List.take_succ_cons]
      cases n with
      | zero => simp [adjacentDistinct]
      | succ k =>
        rw [List.take_succ_cons]
        simp only [adjacentDistinct, Bool.and_eq_true] at h ⊢
        refine ⟨h.1, ?_⟩
        have hh := ih (b :: rest) h.2
        rwa [List.take_succ_cons] at hh

/-- C8: a history insertion preserves `len ≤ historyLimit` and
adjacent-identifier distinctness, and a consecutive play of the head
identifier increments `replayCount` and refreshes `playedAt` on the head
instead of prepending. -/
theorem history_invariant (hist : List HistoryEntry) (limit now : Nat) (t : Track)
    (hlen : hist.length ≤ limit) (hadj : adjacentDistinct hist = true) :
    (addToPreviousTrack hist limit now (some t)).length ≤ limit ∧
    adjacentDistinct (addToPreviousTrack hist limit now (some t)) = true ∧
    (∀ h rest, hist = h :: rest →
      h.track.info.identifier = t.info.identifier →
      addToPreviousTrack hist limit now (some t) =
        { h with replayCount := h.replayCount + 1, playedAt := now } :: rest) := by
  match hist with
  | [] =>
    refine ⟨?_, ?_, ?_⟩
    · simp only [addToPreviousTrack]
      split
      · simp [List.length_take]
      · simp_all
        omega
    · simp only [addToPreviousTrack]
      split
      · exact adjacentDistinct_take limit _ (by simp [adjacentDistinct])
      · simp [adjacentDistinct]
    · intro h rest hx _; exact absurd hx (by simp)
  | h0 :: rest =>
    by_cases hid : h0.track.info.identifier = t.info.identifier
    · refine ⟨?_, ?_, ?_⟩
      · simp only [addToPreviousTrack, if_pos hid]
        simpa using hlen
      · simp only [addToPreviousTrack, if_pos hid]
        cases rest with
        | nil => simp [adjacentDistinct]
        | cons b rest2 =>
          simp only [adjacentDistinct, Bool.and_eq_true] at hadj ⊢
          exact hadj
      · intro h r hx hident
        injection hx with hx1 hx2
        subst hx1; subst hx2
        simp [addToPreviousTrack, if_pos hid]
    · have hne : t.info.identifier ≠ h0.track.info.identifier := fun hh => hid hh.symm
      refine ⟨?_, ?_, ?_⟩
      · simp only [addToPreviousTrack, if_neg hid]
        split
        · simp [List.length_take]
        · simp_all
      · simp only [addToPreviousTrack, if_neg hid]
        have hadj2 : adjacentDistinct
            ({ track := t, playedAt := now, replayCount := 1 } :: h0 :: rest) = true := by
          simp only [adjacentDistinct, Bool.and_eq_true]
          exact ⟨by simp [hne], hadj⟩
        split
        · exact adjacentDistinct_take limit _ hadj2
        · exact hadj2
      · intro h r hx hident
        injection hx with hx1 hx2
        subst hx1
        exact absurd hident hid

/-- C8 (witness): inserting `trackA` onto a one-entry history of `trackB`
keeps the bound and the adjacent-distinctness. -/
theorem history_invariant_witness :
    (addToPreviousTrack [{ track := trackB, playedAt := 1, replayCount := 1 }]
      20 5 (some trackA)).length ≤ 20 ∧
    adjacentDistinct (addToPreviousTrack
      [{ track := trackB, playedAt := 1, replayCount := 1 }] 20 5 (some trackA)) = true := by
  have h := history_invariant [{ track := trackB, playedAt := 1, replayCount := 1 }]
    20 5 trackA (by decide) (by decide)
  exact ⟨h.1, h.2.1⟩

/-- C9: for a non-URL query whose first loadtracks call comes back empty,
`resolve` retries with the Spotify track URL and, if that is still empty,
with the YouTube watch URL; the first non-empty response is the one the
rest of `resolve` consumes. -/
theorem resolve_fallback_order (load : String → LoadResponse) (query source : String)
    (hurl : isUrl query = false)
    (hempty : (load (source ++ ":" ++ query)).loadType = "empty") :
    (isEmptyLoad (load ("https://open.spotify.com/track/" ++ query)) = false →
      resolveLoad load query source =
        Except.ok ([source ++ ":" ++ query,
                    "https://open.spotify.com/track/" ++ query],
          load ("https://open.spotify.com/track/" ++ query))) ∧
    (isEmptyLoad (load ("https://open.spotify.com/track/" ++ query)) = true →
      resolveLoad load query source =
        Except.ok ([source ++ ":" ++ query,
                    "https://open.spotify.com/track/" ++ query,
                    "https://www.youtube.com/watch?v=" ++ query],
          load ("https://www.youtube.com/watch?v=" ++ query))) := by
  have hA : isEmptyLoad (load (source ++ ":" ++ query)) = true := by
    simp [isEmptyLoad, hempty]
  have hB : ((load (source ++ ":" ++ query)).loadType == "error") = false := by
    simp [hempty]
  constructor <;> intro h2 <;>
    simp [resolveLoad, hurl, hA, hB, h2]

/-- C9 (witness): on the oracle where only the YouTube fallback succeeds,
`resolve("abc123")` performs all three calls in order and returns the
third response. -/
theorem resolve_fallback_order_witness :
    resolveLoad loadOracle "abc123" "ytsearch" =
      Except.ok (["ytsearch" ++ ":" ++ "abc123",
                  "https://open.spotify.com/track/" ++ "abc123",
                  "https://www.youtube.com/watch?v=" ++ "abc123"],
        loadOracle ("https://www.youtube.com/watch?v=" ++ "abc123")) := by
  have h := resolve_fallback_order loadOracle "abc123" "ytsearch" (by decide) (by decide)
  exact h.2 (by decide)

/-- C10: a `VOICE_SERVER_UPDATE` processed while the player is paused and
the binding is `connecting` invokes `pause(false)` — clearing `paused`,
setting `playing`, and scheduling a `paused: false` update — and then
marks the connection `connected`. -/
theorem setServerUpdate_unpauses (p : Player) (endpoint token : Option String)
    (hp : p.paused = true)
    (hc : p.connection.connectionState = "connecting")
    (he : strFalsy endpoint = false) :
    ∃ q, setServerUpdate p endpoint token = Except.ok q ∧
      q.paused = false ∧ q.playing = true ∧
      q.updateQueue = p.updateQueue ++ [Upd.paused false] ∧
      q.connection.connectionState = "connected" ∧
      q.connected = true := by
  simp only [setServerUpdate, he, Bool.false_eq_true, if_false, hp, hc, pause,
    queueUpdate, connQueueUpdate]
  exact ⟨_, rfl, rfl, rfl, rfl, rfl, rfl⟩

/-- C10 (witness): the concrete paused, connecting player is silently
un-paused by the server update. -/
theorem setServerUpdate_unpauses_witness :
    ∃ q, setServerUpdate playerPausedConnecting
        (some "us-east42.example:443") (some "T") = Except.ok q ∧
      q.paused = false ∧ q.playing = true ∧
      q.updateQueue = playerPausedConnecting.updateQueue ++ [Upd.paused false] ∧
      q.connection.connectionState = "connected" ∧
      q.connected = true :=
  setServerUpdate_unpauses playerPausedConnecting
    (some "us-east42.example:443") (some "T") (by decide) (by decide) (by decide)

end Euralink
